import Mathlib

/-!
Verification development for the Dynamic Viz engine
(src/dynamic_viz/config.py and src/dynamic_viz/core.py).

The engine turns a visualization request (title, chart kind, tabular
data, optional field names, insight text) into a Vega-Lite style JSON
specification document. We embed the JSON documents as an inductive
type of JSON values, Python dicts as insertion-ordered association
lists, and Python string truthiness (empty string is falsy) explicitly.
The one partial operation in the source, the subtraction
max_val - value inside the gauge generator, is embedded in the
Except monad, so generation as a whole returns Except.
-/

set_option maxRecDepth 4000

namespace DynamicViz

/-- JSON-like values as produced by the engine. Numbers in every input
relevant to the specification are integers, so numbers are embedded
as Int. -/
inductive JValue where
  | null : JValue
  | bool : Bool → JValue
  | num : Int → JValue
  | str : String → JValue
  | arr : List JValue → JValue
  | obj : List (String × JValue) → JValue

/-- One data record: a Python dict from field name to value, kept as an
insertion-ordered association list with distinct keys. -/
abbrev Record := List (String × JValue)

/-- Python dict.get with a default value. -/
def dictGet (r : Record) (k : String) (d : JValue) : JValue :=
  match r.lookup k with
  | some v => v
  | none => d

/-- Python assignment d[k] = v on an insertion-ordered dict: replaces the
value in place when the key exists, appends the pair otherwise. -/
def setPairs (k : String) (v : JValue) : List (String × JValue) → List (String × JValue)
  | [] => [(k, v)]
  | (k2, v2) :: rest => if k2 = k then (k, v) :: rest else (k2, v2) :: setPairs k v rest

/-- Assignment on a JSON object; identity on non-objects (never hit). -/
def JValue.set (j : JValue) (k : String) (v : JValue) : JValue :=
  match j with
  | .obj fs => .obj (setPairs k v fs)
  | other => other

/-- Key lookup on a JSON object. -/
def JValue.get? (j : JValue) (k : String) : Option JValue :=
  match j with
  | .obj fs => fs.lookup k
  | _ => none

/-- Python expression `opt or d` on an optional string: the default is
used when the option is None or the empty string (string truthiness). -/
def pyOr : Option String → String → String
  | none, d => d
  | some s, d => if s = "" then d else s

/-- Python subtraction int - value: defined on numbers (and booleans,
which Python treats as integers), a TypeError on anything else. -/
def pySub (n : Int) (v : JValue) : Except String JValue :=
  match v with
  | .num m => .ok (.num (n - m))
  | .bool b => .ok (.num (n - (if b then 1 else 0)))
  | _ => .error "TypeError: unsupported operand types for subtraction"

/-! The branding table from config.py. -/

/-- BRAND dict of config.py. -/
def BRAND : List (String × String) :=
  [("cyan", "#00F5FF"),
   ("magenta", "#E000FF"),
   ("purple", "#7B2CFF"),
   ("green", "#5BFF8A"),
   ("orange", "#FF7A2F"),
   ("bg_dark", "#111827"),
   ("text", "#e2e8f0"),
   ("text_muted", "#94a3b8")]

/-- Lookup in BRAND (every lookup in the source uses a present key). -/
def brand (k : String) : String := (BRAND.lookup k).getD ""

/-- BRAND_PALETTE of config.py: the derived ordered five color palette. -/
def BRAND_PALETTE : List String :=
  [brand "cyan", brand "magenta", brand "purple", brand "green", brand "orange"]

/-- BRAND_PALETTE as a JSON array. -/
def paletteJ : JValue := .arr (BRAND_PALETTE.map .str)

/-! The request model from core.py. -/

/-- VizRequest.CHART_TYPES: the nine supported chart kinds. -/
def CHART_TYPES : List String :=
  ["bar", "line", "scatter", "pie", "heatmap", "gauge", "funnel", "radial", "timeline"]

/-- VizRequest after construction. created_at is the timestamp string
captured at construction; it is passed in explicitly since the
embedding has no clock. -/
structure VizRequest where
  title : String
  chart_type : String
  data : List Record
  x_field : Option String
  y_field : Option String
  color_field : Option String
  description : String
  insight : String
  created_at : String

/-- The VizRequest constructor: an unrecognized chart_type is coerced
to bar, everything else is stored as given. -/
def VizRequest.init (title chart_type : String) (data : List Record)
    (x_field y_field color_field : Option String)
    (description insight : String) (created_at : String) : VizRequest :=
  { title := title
    chart_type := if chart_type ∈ CHART_TYPES then chart_type else "bar"
    data := data
    x_field := x_field
    y_field := y_field
    color_field := color_field
    description := description
    insight := insight
    created_at := created_at }

/-- Optional string as a JSON value (None becomes null). -/
def optS : Option String → JValue
  | none => .null
  | some s => .str s

/-- VizRequest.to_dict. -/
def VizRequest.to_dict (r : VizRequest) : JValue :=
  .obj [("title", .str r.title),
        ("chart_type", .str r.chart_type),
        ("data", .arr (r.data.map .obj)),
        ("x_field", optS r.x_field),
        ("y_field", optS r.y_field),
        ("color_field", optS r.color_field),
        ("description", .str r.description),
        ("insight", .str r.insight),
        ("created_at", .str r.created_at)]

/-! The per-kind generators of DynamicVizEngine. -/

/-- DynamicVizEngine._base_spec: the shared base document. -/
def base_spec (request : VizRequest) : JValue :=
  .obj [("$schema", .str "https://vega.github.io/schema/vega-lite/v5.json"),
        ("title", .obj
          [("text", .str request.title),
           ("color", .str (brand "text")),
           ("anchor", .str "start"),
           ("fontSize", .num 16),
           ("subtitle", if request.insight = "" then JValue.null else .str request.insight),
           ("subtitleColor", .str (brand "text_muted"))]),
        ("width", .num 400),
        ("height", .num 250),
        ("data", .obj [("values", .arr (request.data.map .obj))]),
        ("config", .obj
          [("background", .str (brand "bg_dark")),
           ("view", .obj [("stroke", .null)]),
           ("axis", .obj
             [("labelColor", .str (brand "text_muted")),
              ("titleColor", .str (brand "text")),
              ("gridColor", .str "#374151")]),
           ("legend", .obj
             [("labelColor", .str (brand "text_muted")),
              ("titleColor", .str (brand "text"))])])]

/-- DynamicVizEngine._gen_bar. -/
def gen_bar (request : VizRequest) : JValue :=
  ((base_spec request).set "mark"
    (.obj [("type", .str "bar"), ("cornerRadiusEnd", .num 4)])).set "encoding"
    (.obj [("x", .obj [("field", .str (pyOr request.x_field "category")),
                       ("type", .str "nominal"), ("title", .null)]),
           ("y", .obj [("field", .str (pyOr request.y_field "value")),
                       ("type", .str "quantitative")]),
           ("color", .obj
             [("field", .str (pyOr request.color_field (pyOr request.x_field "category"))),
              ("type", .str "nominal"),
              ("scale", .obj [("range", paletteJ)]),
              ("legend", .null)]),
           ("tooltip", .arr
             [.obj [("field", .str (pyOr request.x_field "category"))],
              .obj [("field", .str (pyOr request.y_field "value"))]])])

/-- DynamicVizEngine._gen_line. -/
def gen_line (request : VizRequest) : JValue :=
  ((base_spec request).set "mark"
    (.obj [("type", .str "line"), ("strokeWidth", .num 3), ("point", .bool true)])).set "encoding"
    (.obj [("x", .obj [("field", .str (pyOr request.x_field "date")),
                       ("type", .str "temporal"), ("title", .null)]),
           ("y", .obj [("field", .str (pyOr request.y_field "value")),
                       ("type", .str "quantitative")]),
           ("color", .obj [("value", .str (brand "cyan"))]),
           ("tooltip", .arr
             [.obj [("field", .str (pyOr request.x_field "date"))],
              .obj [("field", .str (pyOr request.y_field "value"))]])])

/-- DynamicVizEngine._gen_scatter. -/
def gen_scatter (request : VizRequest) : JValue :=
  ((base_spec request).set "mark"
    (.obj [("type", .str "circle"), ("size", .num 80)])).set "encoding"
    (.obj [("x", .obj [("field", .str (pyOr request.x_field "x")),
                       ("type", .str "quantitative")]),
           ("y", .obj [("field", .str (pyOr request.y_field "y")),
                       ("type", .str "quantitative")]),
           ("color", .obj
             [("field", .str (pyOr request.color_field "category")),
              ("type", .str "nominal"),
              ("scale", .obj [("range", paletteJ)])]),
           ("tooltip", .arr
             [.obj [("field", .str (pyOr request.x_field "x"))],
              .obj [("field", .str (pyOr request.y_field "y"))]])])

/-- DynamicVizEngine._gen_pie. -/
def gen_pie (request : VizRequest) : JValue :=
  ((base_spec request).set "mark"
    (.obj [("type", .str "arc"), ("innerRadius", .num 50)])).set "encoding"
    (.obj [("theta", .obj [("field", .str (pyOr request.y_field "value")),
                           ("type", .str "quantitative")]),
           ("color", .obj
             [("field", .str (pyOr request.x_field "category")),
              ("type", .str "nominal"),
              ("scale", .obj [("range", paletteJ)])]),
           ("tooltip", .arr
             [.obj [("field", .str (pyOr request.x_field "category"))],
              .obj [("field", .str (pyOr request.y_field "value"))]])])

/-- Value extraction in DynamicVizEngine._gen_gauge: the value field of
the first data record (dict.get default 50), or 50 for empty data. -/
def firstGaugeValue (request : VizRequest) : JValue :=
  match request.data with
  | [] => .num 50
  | rec :: _ => dictGet rec (pyOr request.y_field "value") (.num 50)

/-- DynamicVizEngine._gen_gauge. The subtraction max_val - value is the
one place generation can raise, hence the Except result. -/
def gen_gauge (request : VizRequest) : Except String JValue :=
  let value := firstGaugeValue request
  match pySub 100 value with
  | .error e => .error e
  | .ok remaining =>
    let gauge_data : JValue := .arr
      [.obj [("segment", .str "Value"), ("value", value)],
       .obj [("segment", .str "Remaining"), ("value", remaining)]]
    .ok (((((((base_spec request).set "data"
      (.obj [("values", gauge_data)])).set "mark"
      (.obj [("type", .str "arc"), ("innerRadius", .num 60), ("outerRadius", .num 100)])).set "encoding"
      (.obj [("theta", .obj [("field", .str "value"),
                             ("type", .str "quantitative"), ("stack", .bool true)]),
             ("color", .obj
               [("field", .str "segment"),
                ("type", .str "nominal"),
                ("scale", .obj
                  [("domain", .arr [.str "Value", .str "Remaining"]),
                   ("range", .arr [.str (brand "cyan"), .str "#1e293b"])]),
                ("legend", .null)])])).set "width" (.num 200)).set "height" (.num 200)))

/-- DynamicVizEngine._gen_funnel. -/
def gen_funnel (request : VizRequest) : JValue :=
  ((base_spec request).set "mark"
    (.obj [("type", .str "bar"), ("cornerRadiusEnd", .num 4)])).set "encoding"
    (.obj [("y", .obj [("field", .str (pyOr request.x_field "stage")),
                       ("type", .str "ordinal"), ("sort", .null), ("title", .null)]),
           ("x", .obj [("field", .str (pyOr request.y_field "value")),
                       ("type", .str "quantitative")]),
           ("color", .obj
             [("field", .str (pyOr request.x_field "stage")),
              ("type", .str "nominal"),
              ("scale", .obj [("range", paletteJ)]),
              ("legend", .null)])])

/-- DynamicVizEngine._gen_heatmap. -/
def gen_heatmap (request : VizRequest) : JValue :=
  ((base_spec request).set "mark" (.str "rect")).set "encoding"
    (.obj [("x", .obj [("field", .str (pyOr request.x_field "x")),
                       ("type", .str "ordinal")]),
           ("y", .obj [("field", .str (pyOr request.y_field "y")),
                       ("type", .str "ordinal")]),
           ("color", .obj
             [("field", .str (pyOr request.color_field "value")),
              ("type", .str "quantitative"),
              ("scale", .obj [("range", .arr [.str (brand "purple"), .str (brand "cyan")])])])])

/-- DynamicVizEngine._gen_radial. -/
def gen_radial (request : VizRequest) : JValue :=
  ((base_spec request).set "mark"
    (.obj [("type", .str "arc"), ("innerRadius", .num 30)])).set "encoding"
    (.obj [("theta", .obj [("field", .str (pyOr request.y_field "value")),
                           ("type", .str "quantitative"), ("stack", .bool true)]),
           ("color", .obj
             [("field", .str (pyOr request.x_field "category")),
              ("type", .str "nominal"),
              ("scale", .obj [("range", paletteJ)])])])

/-- DynamicVizEngine._gen_timeline. -/
def gen_timeline (request : VizRequest) : JValue :=
  (((base_spec request).set "mark"
    (.obj [("type", .str "circle"), ("size", .num 100)])).set "encoding"
    (.obj [("x", .obj [("field", .str (pyOr request.x_field "date")),
                       ("type", .str "temporal")]),
           ("y", .obj [("value", .num 0)]),
           ("color", .obj
             [("field", .str (pyOr request.color_field "category")),
              ("type", .str "nominal"),
              ("scale", .obj [("range", paletteJ)])]),
           ("tooltip", .arr
             [.obj [("field", .str (pyOr request.x_field "date"))],
              .obj [("field", .str "event"), ("type", .str "nominal")]])])).set "height" (.num 80)

/-! The engine: dispatch, history, sequences of calls. -/

/-- Dispatch of DynamicVizEngine.generate: the generators dict lookup
with _gen_bar as the default for any key outside the table. -/
def specOf (request : VizRequest) : Except String JValue :=
  match request.chart_type with
  | "bar" => .ok (gen_bar request)
  | "line" => .ok (gen_line request)
  | "scatter" => .ok (gen_scatter request)
  | "pie" => .ok (gen_pie request)
  | "gauge" => gen_gauge request
  | "funnel" => .ok (gen_funnel request)
  | "heatmap" => .ok (gen_heatmap request)
  | "radial" => .ok (gen_radial request)
  | "timeline" => .ok (gen_timeline request)
  | _ => .ok (gen_bar request)

/-- Engine session state: the generated_charts history list. -/
structure DynamicVizEngine where
  generated_charts : List JValue

/-- The record appended to generated_charts by one generate call. -/
def histEntry (request : VizRequest) (spec : JValue) : JValue :=
  .obj [("request", request.to_dict), ("spec", spec)]

/-- DynamicVizEngine.generate: dispatch, then append to history. An
exception escaping a generator propagates before the append. -/
def DynamicVizEngine.generate (engine : DynamicVizEngine) (request : VizRequest) :
    Except String (JValue × DynamicVizEngine) :=
  match specOf request with
  | .error e => .error e
  | .ok spec => .ok (spec, ⟨engine.generated_charts ++ [histEntry request spec]⟩)

/-- A sequence of generate calls on one engine instance, stopping at the
first exception. -/
def genSeq (engine : DynamicVizEngine) :
    List VizRequest → Except String (List JValue × DynamicVizEngine)
  | [] => .ok ([], engine)
  | r :: rs =>
    match engine.generate r with
    | .error e => .error e
    | .ok (spec, engine2) =>
      match genSeq engine2 rs with
      | .error e => .error e
      | .ok (specs, engine3) => .ok (spec :: specs, engine3)

/-- AIVizAssistant holds one engine. -/
structure AIVizAssistant where
  engine : DynamicVizEngine

/-- AIVizAssistant.get_chart_history. -/
def AIVizAssistant.get_chart_history (a : AIVizAssistant) : List JValue :=
  a.engine.generated_charts

/-! Observation helpers on generated documents. -/

/-- The specification document returned by a generate call (the first
component of the result; the second is the updated engine). -/
def genSpec (e : DynamicVizEngine) (r : VizRequest) : Except String JValue :=
  (e.generate r).map (fun p => p.1)

/-- The data.values entry of a document. -/
def dataValues (spec : JValue) : Option JValue :=
  (spec.get? "data").bind (fun d => d.get? "values")

/-- The field name bound to an encoding channel of a document. -/
def encField (spec : JValue) (channel : String) : Option JValue :=
  ((spec.get? "encoding").bind (fun e => e.get? channel)).bind (fun c => c.get? "field")

/-- An arbitrary key of an encoding channel of a document. -/
def encSub (spec : JValue) (channel key : String) : Option JValue :=
  ((spec.get? "encoding").bind (fun e => e.get? channel)).bind (fun c => c.get? key)

/-- True when the string begins with the # character, the shape of every
color literal in the source. -/
def isHexColor (s : String) : Bool :=
  match s.data with
  | c :: _ => c = '#'
  | [] => false

/-- The color literals a generated document may contain: the values of
the BRAND table (the five palette entries are among them) plus the two
neutral constants, the grid line color and the gauge track color. -/
def ALLOWED_COLORS : List String :=
  BRAND.map Prod.snd ++ ["#374151", "#1e293b"]

/-- Every color-shaped string literal in the value is from the branding
table or one of the two neutral constants. -/
inductive ColorSourced : JValue → Prop where
  | null : ColorSourced .null
  | bool (b : Bool) : ColorSourced (.bool b)
  | num (n : Int) : ColorSourced (.num n)
  | str (s : String) (h : isHexColor s = true → s ∈ ALLOWED_COLORS) : ColorSourced (.str s)
  | arr (xs : List JValue) (h : ∀ v ∈ xs, ColorSourced v) : ColorSourced (.arr xs)
  | obj (fs : List (String × JValue)) (h : ∀ p ∈ fs, ColorSourced p.2) : ColorSourced (.obj fs)

/-- The value contains no color-shaped string literal at all. -/
inductive NoHex : JValue → Prop where
  | null : NoHex .null
  | bool (b : Bool) : NoHex (.bool b)
  | num (n : Int) : NoHex (.num n)
  | str (s : String) (h : isHexColor s = false) : NoHex (.str s)
  | arr (xs : List JValue) (h : ∀ v ∈ xs, NoHex v) : NoHex (.arr xs)
  | obj (fs : List (String × JValue)) (h : ∀ p ∈ fs, NoHex p.2) : NoHex (.obj fs)

/-- An optional field name that is not color shaped. -/
def optNoHex (o : Option String) : Prop :=
  ∀ s, o = some s → isHexColor s = false

/-- Values Python accepts as the right operand of int subtraction. -/
def isNumeric : JValue → Bool
  | .num _ => true
  | .bool _ => true
  | _ => false

/-! Concrete requests and documents used in counterexamples and witnesses. -/

/-- The two synthetic gauge rows for value 50 (the empty-data default). -/
def gaugeRows50 : JValue :=
  .arr [.obj [("segment", .str "Value"), ("value", .num 50)],
        .obj [("segment", .str "Remaining"), ("value", .num 50)]]

/-- The two synthetic gauge rows for value 85. -/
def gaugeRows85 : JValue :=
  .arr [.obj [("segment", .str "Value"), ("value", .num 85)],
        .obj [("segment", .str "Remaining"), ("value", .num 15)]]

/-- A gauge request with empty data. -/
def reqGaugeEmpty : VizRequest :=
  VizRequest.init "Score" "gauge" [] none none none "" "" "t0"

/-- A gauge request whose single record carries value 85. -/
def reqGauge85 : VizRequest :=
  VizRequest.init "Score" "gauge" [[("value", .num 85)]] none none none "" "" "t0"

/-- A gauge request whose value field holds a string: a documented input
shape (values may be strings) on which the gauge subtraction raises. -/
def reqGaugeBad : VizRequest :=
  VizRequest.init "Score" "gauge" [[("value", .str "85")]] none none none "" "" "t0"

/-- A bar request used in the history witness. -/
def reqA : VizRequest :=
  VizRequest.init "A" "bar" [] none none none "" "" "t1"

/-- A pie request used in the history witness. -/
def reqB : VizRequest :=
  VizRequest.init "B" "pie" [] none none none "" "" "t2"

/-- The engine state after generating reqA then reqB from a fresh engine. -/
def engAB : DynamicVizEngine :=
  ⟨[histEntry reqA (gen_bar reqA), histEntry reqB (gen_pie reqB)]⟩

/-- The funnel stage rows of the specification example. -/
def funnelData : List Record :=
  [[("stage", .str "Leads"), ("value", .num 100)],
   [("stage", .str "Qualified"), ("value", .num 40)],
   [("stage", .str "Closed"), ("value", .num 10)]]

/-- The funnel request of the specification example. -/
def reqFunnel : VizRequest :=
  VizRequest.init "Pipeline" "funnel" funnelData (some "stage") (some "value") none "" "" "t0"

/-- A request that omits all three optional field names. -/
def reqNoFields (t k : String) (data : List Record) (desc ins ts : String) : VizRequest :=
  VizRequest.init t k data none none none desc ins ts

/-- A request that supplies all three field names. -/
def reqWithFields (t k : String) (data : List Record) (xf yf cf : String)
    (desc ins ts : String) : VizRequest :=
  VizRequest.init t k data (some xf) (some yf) (some cf) desc ins ts

/-- A line request created at timestamp t1. -/
def reqC9a : VizRequest :=
  VizRequest.init "T" "line" [[("date", .str "2024-01"), ("value", .num 3)]]
    (some "date") (some "value") none "d" "i" "t1"

/-- The same line request created at timestamp t2. -/
def reqC9b : VizRequest :=
  VizRequest.init "T" "line" [[("date", .str "2024-01"), ("value", .num 3)]]
    (some "date") (some "value") none "d" "i" "t2"

/-- A gauge request whose first record has no value field. -/
def reqC10 : VizRequest :=
  VizRequest.init "S" "gauge" [[("score", .num 7)]] none none none "" "" "t0"

/-! Shared lemmas about dispatch, history and the helpers. -/

theorem generate_eq (e : DynamicVizEngine) (r : VizRequest) :
    e.generate r = match specOf r with
      | .error err => .error err
      | .ok spec => .ok (spec, ⟨e.generated_charts ++ [histEntry r spec]⟩) := rfl

theorem genSpec_eq (e : DynamicVizEngine) (r : VizRequest) : genSpec e r = specOf r := by
  unfold genSpec
  rw [generate_eq]
  cases h : specOf r <;> rfl

theorem specOf_of_bar (r : VizRequest) (h : r.chart_type = "bar") :
    specOf r = .ok (gen_bar r) := by
  unfold specOf
  rw [h]
  rfl

theorem specOf_of_funnel (r : VizRequest) (h : r.chart_type = "funnel") :
    specOf r = .ok (gen_funnel r) := by
  unfold specOf
  rw [h]
  rfl

theorem specOf_of_gauge (r : VizRequest) (h : r.chart_type = "gauge") :
    specOf r = gen_gauge r := by
  unfold specOf
  rw [h]
  rfl

theorem specOf_of_line (r : VizRequest) (h : r.chart_type = "line") :
    specOf r = .ok (gen_line r) := by
  unfold specOf
  rw [h]
  rfl

theorem specOf_of_scatter (r : VizRequest) (h : r.chart_type = "scatter") :
    specOf r = .ok (gen_scatter r) := by
  unfold specOf
  rw [h]
  rfl

theorem specOf_of_pie (r : VizRequest) (h : r.chart_type = "pie") :
    specOf r = .ok (gen_pie r) := by
  unfold specOf
  rw [h]
  rfl

theorem specOf_of_heatmap (r : VizRequest) (h : r.chart_type = "heatmap") :
    specOf r = .ok (gen_heatmap r) := by
  unfold specOf
  rw [h]
  rfl

theorem specOf_of_radial (r : VizRequest) (h : r.chart_type = "radial") :
    specOf r = .ok (gen_radial r) := by
  unfold specOf
  rw [h]
  rfl

theorem specOf_of_timeline (r : VizRequest) (h : r.chart_type = "timeline") :
    specOf r = .ok (gen_timeline r) := by
  unfold specOf
  rw [h]
  rfl

theorem pyOr_some_ne (s d : String) (h : s ≠ "") : pyOr (some s) d = s := by
  simp [pyOr, h]

theorem generate_ok_history (e e2 : DynamicVizEngine) (r : VizRequest) (spec : JValue)
    (h : e.generate r = .ok (spec, e2)) :
    e2.generated_charts = e.generated_charts ++ [histEntry r spec] := by
  rw [generate_eq] at h
  cases hs : specOf r with
  | error err => rw [hs] at h; cases h
  | ok s =>
    rw [hs] at h
    dsimp only at h
    injection h with h1
    injection h1 with h2 h3
    subst h2
    subst h3
    rfl

theorem generate_ok_spec (e e2 : DynamicVizEngine) (r : VizRequest) (spec : JValue)
    (h : e.generate r = .ok (spec, e2)) : specOf r = .ok spec := by
  rw [generate_eq] at h
  cases hs : specOf r with
  | error err => rw [hs] at h; cases h
  | ok s =>
    rw [hs] at h
    dsimp only at h
    injection h with h1
    injection h1 with h2 h3
    rw [h2]

/-! Claim C1. -/

/-- C1 counterexample: the claim says data.values is the empty list for
all nine kinds when data is empty, but the gauge generator replaces
data.values with its two synthetic rows, both carrying value 50. -/
theorem c1_counterexample :
    (genSpec ⟨[]⟩ reqGaugeEmpty).map dataValues = .ok (some gaugeRows50) ∧
    gaugeRows50 ≠ .arr [] := by
  refine ⟨rfl, ?_⟩
  simp [gaugeRows50]

/-- C1 amended: for every request constructed with empty data, generate
succeeds for each of the nine chart kinds; the document has
data.values = [] for the eight non-gauge kinds, while for gauge
data.values holds the two synthetic rows with value 50 each. -/
theorem c1_empty_data (e : DynamicVizEngine) (t k desc ins ts : String)
    (xf yf cf : Option String) (hk : k ∈ CHART_TYPES) :
    (genSpec e (VizRequest.init t k [] xf yf cf desc ins ts)).map dataValues
      = .ok (some (if k = "gauge" then gaugeRows50 else .arr [])) := by
  simp only [CHART_TYPES, List.mem_cons, List.not_mem_nil, or_false] at hk
  rcases hk with rfl | rfl | rfl | rfl | rfl | rfl | rfl | rfl | rfl <;> rfl

/-- C1 witness: the amended claim evaluated on a concrete gauge request. -/
theorem c1_empty_data_witness :
    (genSpec ⟨[]⟩ (VizRequest.init "Score" "gauge" [] none none none "" "" "t0")).map dataValues
      = .ok (some (if "gauge" = "gauge" then gaugeRows50 else .arr [])) :=
  c1_empty_data ⟨[]⟩ "Score" "gauge" "" "" "t0" none none none (by decide)

/-! Claim C2. -/

/-- C2: a chart_type outside the nine enumerated kinds is coerced to bar
at construction (no exception), and generate on such a request returns a
document whose mark is the bar rule mark. -/
theorem c2_unknown_kind (e : DynamicVizEngine) (t k : String) (data : List Record)
    (xf yf cf : Option String) (desc ins ts : String) (hk : k ∉ CHART_TYPES) :
    (VizRequest.init t k data xf yf cf desc ins ts).chart_type = "bar" ∧
    (genSpec e (VizRequest.init t k data xf yf cf desc ins ts)).map (fun s => s.get? "mark")
      = .ok (some (.obj [("type", .str "bar"), ("cornerRadiusEnd", .num 4)])) := by
  have h1 : (VizRequest.init t k data xf yf cf desc ins ts).chart_type = "bar" := by
    simp [VizRequest.init, hk]
  refine ⟨h1, ?_⟩
  rw [genSpec_eq, specOf_of_bar _ h1]
  rfl

/-- C2 witness: the concrete unrecognized kind sparkline. -/
theorem c2_unknown_kind_witness :
    (VizRequest.init "T" "sparkline" [] none none none "" "" "t0").chart_type = "bar" ∧
    (genSpec ⟨[]⟩ (VizRequest.init "T" "sparkline" [] none none none "" "" "t0")).map
        (fun s => s.get? "mark")
      = .ok (some (.obj [("type", .str "bar"), ("cornerRadiusEnd", .num 4)])) :=
  c2_unknown_kind ⟨[]⟩ "T" "sparkline" [] none none none "" "" "t0" (by decide)

/-! Claim C3. -/

/-- C3 counterexample: a gauge request whose value field holds the
string 85 - a documented input, since data values may be strings - makes
generate raise a TypeError instead of returning a document. -/
theorem c3_counterexample :
    (⟨[]⟩ : DynamicVizEngine).generate reqGaugeBad
      = .error "TypeError: unsupported operand types for subtraction" := rfl

/-- C3 amended: generate is total on every request except a gauge
request whose extracted first value (the value field of the first data
record, default 50) is not numeric; under that proviso no exception
reaches the caller. -/
theorem c3_total (e : DynamicVizEngine) (r : VizRequest)
    (h : r.chart_type = "gauge" → isNumeric (firstGaugeValue r) = true) :
    (e.generate r).isOk = true := by
  have hs : (specOf r).isOk = true := by
    unfold specOf
    split
    · rfl
    · rfl
    · rfl
    · rfl
    · next heq =>
      have hn := h heq
      simp only [gen_gauge]
      cases hv : firstGaugeValue r <;> rw [hv] at hn <;> simp [isNumeric] at hn <;> rfl
    · rfl
    · rfl
    · rfl
    · rfl
    · rfl
  rw [generate_eq]
  cases hsp : specOf r with
  | error err => rw [hsp] at hs; simp [Except.isOk, Except.toBool] at hs
  | ok spec => rfl

/-- C3 witness: generate succeeds on a gauge request with numeric value. -/
theorem c3_total_witness :
    ((⟨[]⟩ : DynamicVizEngine).generate reqGauge85).isOk = true :=
  c3_total ⟨[]⟩ reqGauge85 (fun _ => rfl)

/-! Claim C4. -/

/-- C4: the gauge rule on data with first value 85 emits exactly the two
synthetic rows segment Value with value 85 and segment Remaining with
value 15, and on empty data both rows carry value 50. -/
theorem c4_gauge_synthetic_rows :
    (genSpec ⟨[]⟩ reqGauge85).map dataValues = .ok (some gaugeRows85) ∧
    (genSpec ⟨[]⟩ reqGaugeEmpty).map dataValues = .ok (some gaugeRows50) :=
  ⟨rfl, rfl⟩

/-! Claim C5. -/

/-- C5: the history is append-only; after a successful sequence of N
generate calls the history holds exactly N new records, in call order,
each pairing the request dictionary with its resulting specification,
with all prior entries untouched. -/
theorem c5_history (e e2 : DynamicVizEngine) (reqs : List VizRequest) (specs : List JValue)
    (h : genSeq e reqs = .ok (specs, e2)) :
    specs.length = reqs.length ∧
    e2.generated_charts = e.generated_charts ++ List.zipWith histEntry reqs specs := by
  induction reqs generalizing e specs with
  | nil =>
    unfold genSeq at h
    injection h with h1
    injection h1 with h2 h3
    subst h3
    rw [← h2]
    simp
  | cons r rs ih =>
    unfold genSeq at h
    cases hg : DynamicVizEngine.generate e r with
    | error err => rw [hg] at h; cases h
    | ok pe =>
      obtain ⟨spec, e3⟩ := pe
      rw [hg] at h
      dsimp only at h
      cases hseq : genSeq e3 rs with
      | error err => rw [hseq] at h; cases h
      | ok qe =>
        obtain ⟨specs2, e4⟩ := qe
        rw [hseq] at h
        dsimp only at h
        injection h with h1
        injection h1 with h2 h3
        subst h3
        rw [← h2]
        obtain ⟨hlen, hhist⟩ := ih e3 specs2 hseq
        have hstep := generate_ok_history e e3 r spec hg
        constructor
        · simp [hlen]
        · rw [hhist, hstep]
          simp

/-- C5 witness: two concrete calls leave exactly two records in order. -/
theorem c5_history_witness :
    ([gen_bar reqA, gen_pie reqB].length = [reqA, reqB].length ∧
     engAB.generated_charts
       = (⟨[]⟩ : DynamicVizEngine).generated_charts
           ++ List.zipWith histEntry [reqA, reqB] [gen_bar reqA, gen_pie reqB]) :=
  c5_history ⟨[]⟩ engAB [reqA, reqB] [gen_bar reqA, gen_pie reqB] rfl


/-! Claim C6. -/

/-- C6: with all three field names omitted, the encoding of each
non-gauge kind uses its default field names (bar category and value;
line date and value; scatter x, y and color category; pie value and
category; funnel stage and value; heatmap x, y and color value; radial
value and category; timeline date and color category); and a supplied
field name - a nonempty string, since the source treats an empty string
as absent - always takes precedence over the default. -/
theorem c6_field_defaults (e : DynamicVizEngine) (t : String) (data : List Record)
    (desc ins ts : String) (xf yf cf : String)
    (hx : xf ≠ "") (hy : yf ≠ "") (hc : cf ≠ "") :
    ((genSpec e (reqNoFields t "bar" data desc ins ts)).map
        (fun s => (encField s "x", encField s "y", encField s "color"))
      = .ok (some (.str "category"), some (.str "value"), some (.str "category"))) ∧
    ((genSpec e (reqNoFields t "line" data desc ins ts)).map
        (fun s => (encField s "x", encField s "y"))
      = .ok (some (.str "date"), some (.str "value"))) ∧
    ((genSpec e (reqNoFields t "scatter" data desc ins ts)).map
        (fun s => (encField s "x", encField s "y", encField s "color"))
      = .ok (some (.str "x"), some (.str "y"), some (.str "category"))) ∧
    ((genSpec e (reqNoFields t "pie" data desc ins ts)).map
        (fun s => (encField s "theta", encField s "color"))
      = .ok (some (.str "value"), some (.str "category"))) ∧
    ((genSpec e (reqNoFields t "funnel" data desc ins ts)).map
        (fun s => (encField s "y", encField s "x"))
      = .ok (some (.str "stage"), some (.str "value"))) ∧
    ((genSpec e (reqNoFields t "heatmap" data desc ins ts)).map
        (fun s => (encField s "x", encField s "y", encField s "color"))
      = .ok (some (.str "x"), some (.str "y"), some (.str "value"))) ∧
    ((genSpec e (reqNoFields t "radial" data desc ins ts)).map
        (fun s => (encField s "theta", encField s "color"))
      = .ok (some (.str "value"), some (.str "category"))) ∧
    ((genSpec e (reqNoFields t "timeline" data desc ins ts)).map
        (fun s => (encField s "x", encField s "color"))
      = .ok (some (.str "date"), some (.str "category"))) ∧
    ((genSpec e (reqWithFields t "bar" data xf yf cf desc ins ts)).map
        (fun s => (encField s "x", encField s "y", encField s "color"))
      = .ok (some (.str xf), some (.str yf), some (.str cf))) ∧
    ((genSpec e (reqWithFields t "line" data xf yf cf desc ins ts)).map
        (fun s => (encField s "x", encField s "y"))
      = .ok (some (.str xf), some (.str yf))) ∧
    ((genSpec e (reqWithFields t "scatter" data xf yf cf desc ins ts)).map
        (fun s => (encField s "x", encField s "y", encField s "color"))
      = .ok (some (.str xf), some (.str yf), some (.str cf))) ∧
    ((genSpec e (reqWithFields t "pie" data xf yf cf desc ins ts)).map
        (fun s => (encField s "theta", encField s "color"))
      = .ok (some (.str yf), some (.str xf))) ∧
    ((genSpec e (reqWithFields t "funnel" data xf yf cf desc ins ts)).map
        (fun s => (encField s "y", encField s "x", encField s "color"))
      = .ok (some (.str xf), some (.str yf), some (.str xf))) ∧
    ((genSpec e (reqWithFields t "heatmap" data xf yf cf desc ins ts)).map
        (fun s => (encField s "x", encField s "y", encField s "color"))
      = .ok (some (.str xf), some (.str yf), some (.str cf))) ∧
    ((genSpec e (reqWithFields t "radial" data xf yf cf desc ins ts)).map
        (fun s => (encField s "theta", encField s "color"))
      = .ok (some (.str yf), some (.str xf))) ∧
    ((genSpec e (reqWithFields t "timeline" data xf yf cf desc ins ts)).map
        (fun s => (encField s "x", encField s "color"))
      = .ok (some (.str xf), some (.str cf))) := by
  refine ⟨rfl, rfl, rfl, rfl, rfl, rfl, rfl, rfl,
          ?_, ?_, ?_, ?_, ?_, ?_, ?_, ?_⟩
  · rw [genSpec_eq, specOf_of_bar _ rfl]
    simp [Except.map, encField, JValue.get?, gen_bar, base_spec, JValue.set, setPairs,
          reqWithFields, VizRequest.init, pyOr, hx, hy, hc, List.lookup]
  · rw [genSpec_eq, specOf_of_line _ rfl]
    simp [Except.map, encField, JValue.get?, gen_line, base_spec, JValue.set, setPairs,
          reqWithFields, VizRequest.init, pyOr, hx, hy, hc, List.lookup]
  · rw [genSpec_eq, specOf_of_scatter _ rfl]
    simp [Except.map, encField, JValue.get?, gen_scatter, base_spec, JValue.set, setPairs,
          reqWithFields, VizRequest.init, pyOr, hx, hy, hc, List.lookup]
  · rw [genSpec_eq, specOf_of_pie _ rfl]
    simp [Except.map, encField, JValue.get?, gen_pie, base_spec, JValue.set, setPairs,
          reqWithFields, VizRequest.init, pyOr, hx, hy, hc, List.lookup]
  · rw [genSpec_eq, specOf_of_funnel _ rfl]
    simp [Except.map, encField, JValue.get?, gen_funnel, base_spec, JValue.set, setPairs,
          reqWithFields, VizRequest.init, pyOr, hx, hy, hc, List.lookup]
  · rw [genSpec_eq, specOf_of_heatmap _ rfl]
    simp [Except.map, encField, JValue.get?, gen_heatmap, base_spec, JValue.set, setPairs,
          reqWithFields, VizRequest.init, pyOr, hx, hy, hc, List.lookup]
  · rw [genSpec_eq, specOf_of_radial _ rfl]
    simp [Except.map, encField, JValue.get?, gen_radial, base_spec, JValue.set, setPairs,
          reqWithFields, VizRequest.init, pyOr, hx, hy, hc, List.lookup]
  · rw [genSpec_eq, specOf_of_timeline _ rfl]
    simp [Except.map, encField, JValue.get?, gen_timeline, base_spec, JValue.set, setPairs,
          reqWithFields, VizRequest.init, pyOr, hx, hy, hc, List.lookup]

/-- C6 witness: the defaults and the precedence evaluated at concrete
field names a, b and c. -/
theorem c6_field_defaults_witness :
    ("a" : String) ≠ "" ∧ ("b" : String) ≠ "" ∧ ("c" : String) ≠ "" ∧
    (
    ((genSpec ⟨[]⟩ (reqNoFields "T" "bar" [] "" "" "t0")).map
        (fun s => (encField s "x", encField s "y", encField s "color"))
      = .ok (some (.str "category"), some (.str "value"), some (.str "category"))) ∧
    ((genSpec ⟨[]⟩ (reqNoFields "T" "line" [] "" "" "t0")).map
        (fun s => (encField s "x", encField s "y"))
      = .ok (some (.str "date"), some (.str "value"))) ∧
    ((genSpec ⟨[]⟩ (reqNoFields "T" "scatter" [] "" "" "t0")).map
        (fun s => (encField s "x", encField s "y", encField s "color"))
      = .ok (some (.str "x"), some (.str "y"), some (.str "category"))) ∧
    ((genSpec ⟨[]⟩ (reqNoFields "T" "pie" [] "" "" "t0")).map
        (fun s => (encField s "theta", encField s "color"))
      = .ok (some (.str "value"), some (.str "category"))) ∧
    ((genSpec ⟨[]⟩ (reqNoFields "T" "funnel" [] "" "" "t0")).map
        (fun s => (encField s "y", encField s "x"))
      = .ok (some (.str "stage"), some (.str "value"))) ∧
    ((genSpec ⟨[]⟩ (reqNoFields "T" "heatmap" [] "" "" "t0")).map
        (fun s => (encField s "x", encField s "y", encField s "color"))
      = .ok (some (.str "x"), some (.str "y"), some (.str "value"))) ∧
    ((genSpec ⟨[]⟩ (reqNoFields "T" "radial" [] "" "" "t0")).map
        (fun s => (encField s "theta", encField s "color"))
      = .ok (some (.str "value"), some (.str "category"))) ∧
    ((genSpec ⟨[]⟩ (reqNoFields "T" "timeline" [] "" "" "t0")).map
        (fun s => (encField s "x", encField s "color"))
      = .ok (some (.str "date"), some (.str "category"))) ∧
    ((genSpec ⟨[]⟩ (reqWithFields "T" "bar" [] "a" "b" "c" "" "" "t0")).map
        (fun s => (encField s "x", encField s "y", encField s "color"))
      = .ok (some (.str "a"), some (.str "b"), some (.str "c"))) ∧
    ((genSpec ⟨[]⟩ (reqWithFields "T" "line" [] "a" "b" "c" "" "" "t0")).map
        (fun s => (encField s "x", encField s "y"))
      = .ok (some (.str "a"), some (.str "b"))) ∧
    ((genSpec ⟨[]⟩ (reqWithFields "T" "scatter" [] "a" "b" "c" "" "" "t0")).map
        (fun s => (encField s "x", encField s "y", encField s "color"))
      = .ok (some (.str "a"), some (.str "b"), some (.str "c"))) ∧
    ((genSpec ⟨[]⟩ (reqWithFields "T" "pie" [] "a" "b" "c" "" "" "t0")).map
        (fun s => (encField s "theta", encField s "color"))
      = .ok (some (.str "b"), some (.str "a"))) ∧
    ((genSpec ⟨[]⟩ (reqWithFields "T" "funnel" [] "a" "b" "c" "" "" "t0")).map
        (fun s => (encField s "y", encField s "x", encField s "color"))
      = .ok (some (.str "a"), some (.str "b"), some (.str "a"))) ∧
    ((genSpec ⟨[]⟩ (reqWithFields "T" "heatmap" [] "a" "b" "c" "" "" "t0")).map
        (fun s => (encField s "x", encField s "y", encField s "color"))
      = .ok (some (.str "a"), some (.str "b"), some (.str "c"))) ∧
    ((genSpec ⟨[]⟩ (reqWithFields "T" "radial" [] "a" "b" "c" "" "" "t0")).map
        (fun s => (encField s "theta", encField s "color"))
      = .ok (some (.str "b"), some (.str "a"))) ∧
    ((genSpec ⟨[]⟩ (reqWithFields "T" "timeline" [] "a" "b" "c" "" "" "t0")).map
        (fun s => (encField s "x", encField s "color"))
      = .ok (some (.str "a"), some (.str "c")))) :=
  ⟨by decide, by decide, by decide,
   c6_field_defaults ⟨[]⟩ "T" [] "" "" "t0" "a" "b" "c" (by decide) (by decide) (by decide)⟩

/-! Claim C7. -/

/-- C7: every funnel document disables sorting on the stage-label
channel (sort present and null), suppresses the color legend (legend
present and null), and embeds the caller data verbatim and in order in
data.values, so record order is preserved whatever the values are. -/
theorem c7_funnel_order (e : DynamicVizEngine) (r : VizRequest)
    (h : r.chart_type = "funnel") :
    (genSpec e r).map
        (fun s => (encSub s "y" "sort", encSub s "color" "legend", dataValues s))
      = .ok (some .null, some .null, some (.arr (r.data.map .obj))) := by
  rw [genSpec_eq, specOf_of_funnel _ h]
  rfl

/-- C7 witness: the stages Leads, Qualified, Closed with values 100, 40
and 10 appear in exactly the caller-supplied order. -/
theorem c7_funnel_order_witness :
    (genSpec ⟨[]⟩ reqFunnel).map
        (fun s => (encSub s "y" "sort", encSub s "color" "legend", dataValues s))
      = .ok (some .null, some .null, some (.arr
          [.obj [("stage", .str "Leads"), ("value", .num 100)],
           .obj [("stage", .str "Qualified"), ("value", .num 40)],
           .obj [("stage", .str "Closed"), ("value", .num 10)]])) :=
  c7_funnel_order ⟨[]⟩ reqFunnel rfl

/-! Claim C8: color sourcing lemmas. -/

theorem isHexColor_pyOr {o : Option String} {d : String} (ho : optNoHex o)
    (hd : isHexColor d = false) : isHexColor (pyOr o d) = false := by
  cases o with
  | none => exact hd
  | some s =>
    by_cases hs : s = ""
    · simpa [pyOr, hs] using hd
    · simpa [pyOr, hs] using ho s rfl

theorem cs_str_nohex {s : String} (h : isHexColor s = false) : ColorSourced (.str s) :=
  .str s (fun hc => absurd hc (by simp [h]))

theorem cs_str_allowed {s : String} (h : s ∈ ALLOWED_COLORS) : ColorSourced (.str s) :=
  .str s (fun _ => h)

theorem cs_pyOr {o : Option String} {d : String} (ho : optNoHex o)
    (hd : isHexColor d = false) : ColorSourced (.str (pyOr o d)) :=
  cs_str_nohex (isHexColor_pyOr ho hd)

theorem cs_subtitle {s : String} (h : isHexColor s = false) :
    ColorSourced (if s = "" then JValue.null else .str s) := by
  split
  · exact .null
  · exact cs_str_nohex h

theorem cs_of_noHex (v : JValue) (h : NoHex v) : ColorSourced v := by
  induction h with
  | null => exact .null
  | bool b => exact .bool b
  | num n => exact .num n
  | str s hs => exact cs_str_nohex hs
  | arr xs hxs ih => exact .arr xs ih
  | obj fs hfs ih => exact .obj fs ih

theorem mem_setPairs (k : String) (v : JValue) (fs : List (String × JValue))
    (p : String × JValue) (hp : p ∈ setPairs k v fs) : p = (k, v) ∨ p ∈ fs := by
  induction fs with
  | nil =>
    simp only [setPairs, List.mem_singleton] at hp
    exact Or.inl hp
  | cons q t ih =>
    obtain ⟨a, b⟩ := q
    by_cases ha : a = k
    · simp only [setPairs, if_pos ha] at hp
      rcases List.mem_cons.mp hp with h1 | h1
      · exact Or.inl h1
      · exact Or.inr (List.mem_cons_of_mem _ h1)
    · simp only [setPairs, if_neg ha] at hp
      rcases List.mem_cons.mp hp with h1 | h1
      · exact Or.inr (by rw [h1]; exact List.mem_cons_self _ _)
      · rcases ih h1 with h2 | h2
        · exact Or.inl h2
        · exact Or.inr (List.mem_cons_of_mem _ h2)

theorem cs_set {j v : JValue} (k : String) (hj : ColorSourced j) (hv : ColorSourced v) :
    ColorSourced (j.set k v) := by
  cases hj with
  | null => exact .null
  | bool b => exact .bool b
  | num n => exact .num n
  | str s hs => exact .str s hs
  | arr xs hxs => exact .arr xs hxs
  | obj fs hfs =>
    refine .obj _ (fun p hp => ?_)
    rcases mem_setPairs k v fs p hp with rfl | hmem
    · exact hv
    · exact hfs p hmem

theorem cs_obj1 {k1 : String} {v1 : JValue} (h1 : ColorSourced v1) :
    ColorSourced (.obj [(k1, v1)]) := by
  refine .obj _ (fun p hp => ?_)
  simp only [List.mem_singleton] at hp
  rcases hp with rfl
  exact h1

theorem cs_obj2 {k1 k2 : String} {v1 v2 : JValue}
    (h1 : ColorSourced v1) (h2 : ColorSourced v2) :
    ColorSourced (.obj [(k1, v1), (k2, v2)]) := by
  refine .obj _ (fun p hp => ?_)
  simp only [List.mem_cons, List.not_mem_nil, or_false] at hp
  rcases hp with rfl | rfl
  · exact h1
  · exact h2

theorem cs_obj3 {k1 k2 k3 : String} {v1 v2 v3 : JValue}
    (h1 : ColorSourced v1) (h2 : ColorSourced v2) (h3 : ColorSourced v3) :
    ColorSourced (.obj [(k1, v1), (k2, v2), (k3, v3)]) := by
  refine .obj _ (fun p hp => ?_)
  simp only [List.mem_cons, List.not_mem_nil, or_false] at hp
  rcases hp with rfl | rfl | rfl
  · exact h1
  · exact h2
  · exact h3

theorem cs_obj4 {k1 k2 k3 k4 : String} {v1 v2 v3 v4 : JValue}
    (h1 : ColorSourced v1) (h2 : ColorSourced v2) (h3 : ColorSourced v3)
    (h4 : ColorSourced v4) :
    ColorSourced (.obj [(k1, v1), (k2, v2), (k3, v3), (k4, v4)]) := by
  refine .obj _ (fun p hp => ?_)
  simp only [List.mem_cons, List.not_mem_nil, or_false] at hp
  rcases hp with rfl | rfl | rfl | rfl
  · exact h1
  · exact h2
  · exact h3
  · exact h4

theorem cs_obj6 {k1 k2 k3 k4 k5 k6 : String} {v1 v2 v3 v4 v5 v6 : JValue}
    (h1 : ColorSourced v1) (h2 : ColorSourced v2) (h3 : ColorSourced v3)
    (h4 : ColorSourced v4) (h5 : ColorSourced v5) (h6 : ColorSourced v6) :
    ColorSourced (.obj [(k1, v1), (k2, v2), (k3, v3), (k4, v4), (k5, v5), (k6, v6)]) := by
  refine .obj _ (fun p hp => ?_)
  simp only [List.mem_cons, List.not_mem_nil, or_false] at hp
  rcases hp with rfl | rfl | rfl | rfl | rfl | rfl
  · exact h1
  · exact h2
  · exact h3
  · exact h4
  · exact h5
  · exact h6

theorem cs_arr2 {v1 v2 : JValue} (h1 : ColorSourced v1) (h2 : ColorSourced v2) :
    ColorSourced (.arr [v1, v2]) := by
  refine .arr _ (fun v hv => ?_)
  simp only [List.mem_cons, List.not_mem_nil, or_false] at hv
  rcases hv with rfl | rfl
  · exact h1
  · exact h2

theorem cs_palette : ColorSourced paletteJ := by
  refine .arr _ (fun v hv => ?_)
  simp only [paletteJ, BRAND_PALETTE, List.map, List.mem_cons, List.not_mem_nil,
    or_false] at hv
  rcases hv with rfl | rfl | rfl | rfl | rfl <;> exact cs_str_allowed (by decide)

theorem cs_data_arr {data : List Record}
    (hd : ∀ rec ∈ data, ∀ p ∈ rec, NoHex p.2) :
    ColorSourced (.arr (data.map .obj)) := by
  refine .arr _ (fun v hv => ?_)
  simp only [List.mem_map] at hv
  obtain ⟨rec, hrec, rfl⟩ := hv
  exact .obj _ (fun q hq => cs_of_noHex _ (hd rec hrec q hq))

theorem cs_config : ColorSourced (.obj
    [("background", .str (brand "bg_dark")),
     ("view", .obj [("stroke", JValue.null)]),
     ("axis", .obj
       [("labelColor", .str (brand "text_muted")),
        ("titleColor", .str (brand "text")),
        ("gridColor", .str "#374151")]),
     ("legend", .obj
       [("labelColor", .str (brand "text_muted")),
        ("titleColor", .str (brand "text"))])]) :=
  cs_obj4 (cs_str_allowed (by decide)) (cs_obj1 .null)
    (cs_obj3 (cs_str_allowed (by decide)) (cs_str_allowed (by decide))
      (cs_str_allowed (by decide)))
    (cs_obj2 (cs_str_allowed (by decide)) (cs_str_allowed (by decide)))

theorem cs_base (r : VizRequest) (ht : isHexColor r.title = false)
    (hi : isHexColor r.insight = false)
    (hd : ∀ rec ∈ r.data, ∀ p ∈ rec, NoHex p.2) :
    ColorSourced (base_spec r) :=
  cs_obj6 (cs_str_nohex rfl)
    (cs_obj6 (cs_str_nohex ht) (cs_str_allowed (by decide)) (cs_str_nohex rfl)
      (.num 16) (cs_subtitle hi) (cs_str_allowed (by decide)))
    (.num 400) (.num 250) (cs_obj1 (cs_data_arr hd)) cs_config

theorem cs_gen_bar (r : VizRequest) (ht : isHexColor r.title = false)
    (hi : isHexColor r.insight = false) (hx : optNoHex r.x_field)
    (hy : optNoHex r.y_field) (hc : optNoHex r.color_field)
    (hd : ∀ rec ∈ r.data, ∀ p ∈ rec, NoHex p.2) :
    ColorSourced (gen_bar r) :=
  cs_set "encoding"
    (cs_set "mark" (cs_base r ht hi hd) (cs_obj2 (cs_str_nohex rfl) (.num 4)))
    (cs_obj4
      (cs_obj3 (cs_pyOr hx rfl) (cs_str_nohex rfl) .null)
      (cs_obj2 (cs_pyOr hy rfl) (cs_str_nohex rfl))
      (cs_obj4 (cs_pyOr hc (isHexColor_pyOr hx rfl)) (cs_str_nohex rfl)
        (cs_obj1 cs_palette) .null)
      (cs_arr2 (cs_obj1 (cs_pyOr hx rfl)) (cs_obj1 (cs_pyOr hy rfl))))

theorem cs_gen_line (r : VizRequest) (ht : isHexColor r.title = false)
    (hi : isHexColor r.insight = false) (hx : optNoHex r.x_field)
    (hy : optNoHex r.y_field) (hc : optNoHex r.color_field)
    (hd : ∀ rec ∈ r.data, ∀ p ∈ rec, NoHex p.2) :
    ColorSourced (gen_line r) :=
  cs_set "encoding"
    (cs_set "mark" (cs_base r ht hi hd)
      (cs_obj3 (cs_str_nohex rfl) (.num 3) (.bool true)))
    (cs_obj4
      (cs_obj3 (cs_pyOr hx rfl) (cs_str_nohex rfl) .null)
      (cs_obj2 (cs_pyOr hy rfl) (cs_str_nohex rfl))
      (cs_obj1 (cs_str_allowed (by decide)))
      (cs_arr2 (cs_obj1 (cs_pyOr hx rfl)) (cs_obj1 (cs_pyOr hy rfl))))

theorem cs_gen_scatter (r : VizRequest) (ht : isHexColor r.title = false)
    (hi : isHexColor r.insight = false) (hx : optNoHex r.x_field)
    (hy : optNoHex r.y_field) (hc : optNoHex r.color_field)
    (hd : ∀ rec ∈ r.data, ∀ p ∈ rec, NoHex p.2) :
    ColorSourced (gen_scatter r) :=
  cs_set "encoding"
    (cs_set "mark" (cs_base r ht hi hd) (cs_obj2 (cs_str_nohex rfl) (.num 80)))
    (cs_obj4
      (cs_obj2 (cs_pyOr hx rfl) (cs_str_nohex rfl))
      (cs_obj2 (cs_pyOr hy rfl) (cs_str_nohex rfl))
      (cs_obj3 (cs_pyOr hc rfl) (cs_str_nohex rfl) (cs_obj1 cs_palette))
      (cs_arr2 (cs_obj1 (cs_pyOr hx rfl)) (cs_obj1 (cs_pyOr hy rfl))))

theorem cs_gen_pie (r : VizRequest) (ht : isHexColor r.title = false)
    (hi : isHexColor r.insight = false) (hx : optNoHex r.x_field)
    (hy : optNoHex r.y_field) (hc : optNoHex r.color_field)
    (hd : ∀ rec ∈ r.data, ∀ p ∈ rec, NoHex p.2) :
    ColorSourced (gen_pie r) :=
  cs_set "encoding"
    (cs_set "mark" (cs_base r ht hi hd) (cs_obj2 (cs_str_nohex rfl) (.num 50)))
    (cs_obj3
      (cs_obj2 (cs_pyOr hy rfl) (cs_str_nohex rfl))
      (cs_obj3 (cs_pyOr hx rfl) (cs_str_nohex rfl) (cs_obj1 cs_palette))
      (cs_arr2 (cs_obj1 (cs_pyOr hx rfl)) (cs_obj1 (cs_pyOr hy rfl))))

theorem cs_gen_funnel (r : VizRequest) (ht : isHexColor r.title = false)
    (hi : isHexColor r.insight = false) (hx : optNoHex r.x_field)
    (hy : optNoHex r.y_field) (hc : optNoHex r.color_field)
    (hd : ∀ rec ∈ r.data, ∀ p ∈ rec, NoHex p.2) :
    ColorSourced (gen_funnel r) :=
  cs_set "encoding"
    (cs_set "mark" (cs_base r ht hi hd) (cs_obj2 (cs_str_nohex rfl) (.num 4)))
    (cs_obj3
      (cs_obj4 (cs_pyOr hx rfl) (cs_str_nohex rfl) .null .null)
      (cs_obj2 (cs_pyOr hy rfl) (cs_str_nohex rfl))
      (cs_obj4 (cs_pyOr hx rfl) (cs_str_nohex rfl) (cs_obj1 cs_palette) .null))

theorem cs_gen_heatmap (r : VizRequest) (ht : isHexColor r.title = false)
    (hi : isHexColor r.insight = false) (hx : optNoHex r.x_field)
    (hy : optNoHex r.y_field) (hc : optNoHex r.color_field)
    (hd : ∀ rec ∈ r.data, ∀ p ∈ rec, NoHex p.2) :
    ColorSourced (gen_heatmap r) :=
  cs_set "encoding"
    (cs_set "mark" (cs_base r ht hi hd) (cs_str_nohex rfl))
    (cs_obj3
      (cs_obj2 (cs_pyOr hx rfl) (cs_str_nohex rfl))
      (cs_obj2 (cs_pyOr hy rfl) (cs_str_nohex rfl))
      (cs_obj3 (cs_pyOr hc rfl) (cs_str_nohex rfl)
        (cs_obj1 (cs_arr2 (cs_str_allowed (by decide)) (cs_str_allowed (by decide))))))

theorem cs_gen_radial (r : VizRequest) (ht : isHexColor r.title = false)
    (hi : isHexColor r.insight = false) (hx : optNoHex r.x_field)
    (hy : optNoHex r.y_field) (hc : optNoHex r.color_field)
    (hd : ∀ rec ∈ r.data, ∀ p ∈ rec, NoHex p.2) :
    ColorSourced (gen_radial r) :=
  cs_set "encoding"
    (cs_set "mark" (cs_base r ht hi hd) (cs_obj2 (cs_str_nohex rfl) (.num 30)))
    (cs_obj2
      (cs_obj3 (cs_pyOr hy rfl) (cs_str_nohex rfl) (.bool true))
      (cs_obj3 (cs_pyOr hx rfl) (cs_str_nohex rfl) (cs_obj1 cs_palette)))

theorem cs_gen_timeline (r : VizRequest) (ht : isHexColor r.title = false)
    (hi : isHexColor r.insight = false) (hx : optNoHex r.x_field)
    (hy : optNoHex r.y_field) (hc : optNoHex r.color_field)
    (hd : ∀ rec ∈ r.data, ∀ p ∈ rec, NoHex p.2) :
    ColorSourced (gen_timeline r) :=
  cs_set "height"
    (cs_set "encoding"
      (cs_set "mark" (cs_base r ht hi hd) (cs_obj2 (cs_str_nohex rfl) (.num 100)))
      (cs_obj4
        (cs_obj2 (cs_pyOr hx rfl) (cs_str_nohex rfl))
        (cs_obj1 (.num 0))
        (cs_obj3 (cs_pyOr hc rfl) (cs_str_nohex rfl) (cs_obj1 cs_palette))
        (cs_arr2 (cs_obj1 (cs_pyOr hx rfl))
          (cs_obj2 (cs_str_nohex rfl) (cs_str_nohex rfl)))))
    (.num 80)

theorem lookup_mem_value (rec : Record) (k : String) (v : JValue)
    (h : rec.lookup k = some v) : ∃ key, (key, v) ∈ rec := by
  induction rec with
  | nil => cases h
  | cons p t ih =>
    obtain ⟨a, b⟩ := p
    simp only [List.lookup] at h
    cases hk : (k == a) with
    | true =>
      rw [hk] at h
      dsimp only at h
      injection h with hv
      exact ⟨a, by rw [← hv]; exact List.mem_cons_self _ _⟩
    | false =>
      rw [hk] at h
      dsimp only at h
      obtain ⟨key, hm⟩ := ih h
      exact ⟨key, List.mem_cons_of_mem _ hm⟩

theorem cs_firstGaugeValue (r : VizRequest)
    (hd : ∀ rec ∈ r.data, ∀ p ∈ rec, NoHex p.2) :
    ColorSourced (firstGaugeValue r) := by
  unfold firstGaugeValue
  cases hdata : r.data with
  | nil => exact .num 50
  | cons rec rest =>
    dsimp only
    unfold dictGet
    cases hl : rec.lookup (pyOr r.y_field "value") with
    | none => exact .num 50
    | some v =>
      dsimp only
      obtain ⟨key, hm⟩ := lookup_mem_value rec _ v hl
      have hrec : rec ∈ r.data := by rw [hdata]; exact List.mem_cons_self _ _
      exact cs_of_noHex v (hd rec hrec (key, v) hm)

theorem pySub_colorSourced (n : Int) (v w : JValue) (h : pySub n v = .ok w) :
    ColorSourced w := by
  cases v with
  | num m => simp only [pySub, Except.ok.injEq] at h; rw [← h]; exact .num _
  | bool b => simp only [pySub, Except.ok.injEq] at h; rw [← h]; exact .num _
  | null => simp [pySub] at h
  | str s => simp [pySub] at h
  | arr xs => simp [pySub] at h
  | obj fs => simp [pySub] at h

theorem cs_gen_gauge (r : VizRequest) (spec : JValue) (ht : isHexColor r.title = false)
    (hi : isHexColor r.insight = false)
    (hd : ∀ rec ∈ r.data, ∀ p ∈ rec, NoHex p.2)
    (h : gen_gauge r = .ok spec) : ColorSourced spec := by
  simp only [gen_gauge] at h
  cases hv : pySub 100 (firstGaugeValue r) with
  | error err => rw [hv] at h; cases h
  | ok w =>
    rw [hv] at h
    dsimp only at h
    injection h with h1
    rw [← h1]
    refine cs_set "height" (cs_set "width" (cs_set "encoding" (cs_set "mark"
      (cs_set "data" (cs_base r ht hi hd) ?_) ?_) ?_) (.num 200)) (.num 200)
    · exact cs_obj1 (cs_arr2
        (cs_obj2 (cs_str_nohex rfl) (cs_firstGaugeValue r hd))
        (cs_obj2 (cs_str_nohex rfl) (pySub_colorSourced 100 (firstGaugeValue r) w hv)))
    · exact cs_obj3 (cs_str_nohex rfl) (.num 60) (.num 100)
    · exact cs_obj2
        (cs_obj3 (cs_str_nohex rfl) (cs_str_nohex rfl) (.bool true))
        (cs_obj4 (cs_str_nohex rfl) (cs_str_nohex rfl)
          (cs_obj2 (cs_arr2 (cs_str_nohex rfl) (cs_str_nohex rfl))
            (cs_arr2 (cs_str_allowed (by decide)) (cs_str_allowed (by decide))))
          .null)

/-- C8: whenever the request itself carries no color-shaped strings (in
the title, insight, field names, or data records), every string in the
generated document that begins with the # character is a value of the
BRAND table (the five BRAND_PALETTE entries are among those values) or
one of the two neutral constants, the grid line color and the gauge
track color: no rule emits any other color literal. -/
theorem c8_color_sourcing (e e2 : DynamicVizEngine) (r : VizRequest) (spec : JValue)
    (ht : isHexColor r.title = false) (hi : isHexColor r.insight = false)
    (hx : optNoHex r.x_field) (hy : optNoHex r.y_field) (hc : optNoHex r.color_field)
    (hd : ∀ rec ∈ r.data, ∀ p ∈ rec, NoHex p.2)
    (hok : e.generate r = .ok (spec, e2)) :
    ColorSourced spec := by
  have hs := generate_ok_spec e e2 r spec hok
  unfold specOf at hs
  split at hs
  · injection hs with h1; rw [← h1]; exact cs_gen_bar r ht hi hx hy hc hd
  · injection hs with h1; rw [← h1]; exact cs_gen_line r ht hi hx hy hc hd
  · injection hs with h1; rw [← h1]; exact cs_gen_scatter r ht hi hx hy hc hd
  · injection hs with h1; rw [← h1]; exact cs_gen_pie r ht hi hx hy hc hd
  · exact cs_gen_gauge r spec ht hi hd hs
  · injection hs with h1; rw [← h1]; exact cs_gen_funnel r ht hi hx hy hc hd
  · injection hs with h1; rw [← h1]; exact cs_gen_heatmap r ht hi hx hy hc hd
  · injection hs with h1; rw [← h1]; exact cs_gen_radial r ht hi hx hy hc hd
  · injection hs with h1; rw [← h1]; exact cs_gen_timeline r ht hi hx hy hc hd
  · injection hs with h1; rw [← h1]; exact cs_gen_bar r ht hi hx hy hc hd

/-- C8 witness: the funnel example document only carries branded colors. -/
theorem c8_color_sourcing_witness : ColorSourced (gen_funnel reqFunnel) :=
  c8_color_sourcing ⟨[]⟩ ⟨[histEntry reqFunnel (gen_funnel reqFunnel)]⟩
    reqFunnel (gen_funnel reqFunnel) rfl rfl
    (fun s h => by cases h; rfl)
    (fun s h => by cases h; rfl)
    (fun s h => nomatch h)
    (by
      intro rec hrec p hp
      fin_cases hrec <;>
        simp only [List.mem_cons, List.not_mem_nil, or_false] at hp <;>
        rcases hp with rfl | rfl <;>
        first
          | exact NoHex.str _ rfl
          | exact NoHex.num _)
    rfl

/-! Claims C9 and C10. -/

theorem lookup_cons_pair (a k : String) (v : JValue) (l : List (String × JValue)) :
    List.lookup a ((k, v) :: l) = if a == k then some v else List.lookup a l := by
  cases h : (a == k) <;> simp [List.lookup, h]

/-- C9: generation is deterministic; two requests equal in every
component except the construction timestamp produce equal documents
from any engine states, and their history record dictionaries agree on
every key other than created_at. -/
theorem c9_idempotent (e1 e2 : DynamicVizEngine) (r1 r2 : VizRequest)
    (ht : r1.title = r2.title) (hk : r1.chart_type = r2.chart_type)
    (hd : r1.data = r2.data) (hx : r1.x_field = r2.x_field)
    (hy : r1.y_field = r2.y_field) (hc : r1.color_field = r2.color_field)
    (hde : r1.description = r2.description) (hin : r1.insight = r2.insight) :
    genSpec e1 r1 = genSpec e2 r2 ∧
    (∀ k, k ≠ "created_at" → (r1.to_dict).get? k = (r2.to_dict).get? k) := by
  obtain ⟨t1, k1, d1, x1, y1, c1, ds1, i1, ca1⟩ := r1
  obtain ⟨t2, k2, d2, x2, y2, c2, ds2, i2, ca2⟩ := r2
  simp only at ht hk hd hx hy hc hde hin
  subst ht; subst hk; subst hd; subst hx; subst hy; subst hc; subst hde; subst hin
  constructor
  · rw [genSpec_eq, genSpec_eq]
    rfl
  · intro k hkne
    have hne : (k == "created_at") = false := beq_eq_false_iff_ne.mpr hkne
    simp only [VizRequest.to_dict, JValue.get?, lookup_cons_pair, hne,
      Bool.false_eq_true, if_false]

/-- C9 witness: two equal line requests with distinct timestamps. -/
theorem c9_idempotent_witness :
    genSpec ⟨[]⟩ reqC9a = genSpec ⟨[]⟩ reqC9b ∧
    (reqC9a.to_dict).get? "title" = (reqC9b.to_dict).get? "title" :=
  ⟨(c9_idempotent ⟨[]⟩ ⟨[]⟩ reqC9a reqC9b rfl rfl rfl rfl rfl rfl rfl rfl).1,
   (c9_idempotent ⟨[]⟩ ⟨[]⟩ reqC9a reqC9b rfl rfl rfl rfl rfl rfl rfl rfl).2
     "title" (by decide)⟩

/-- C10: a gauge request with nonempty data whose first record lacks the
value field (the y_field when supplied, else the literal value) falls
back to 50, emitting the same two rows as the empty-data case: segment
Value with value 50 and segment Remaining with value 50. -/
theorem c10_gauge_missing_value (e : DynamicVizEngine) (r : VizRequest)
    (rec : Record) (rest : List Record)
    (hk : r.chart_type = "gauge") (hdata : r.data = rec :: rest)
    (hmiss : rec.lookup (pyOr r.y_field "value") = none) :
    (genSpec e r).map dataValues = .ok (some gaugeRows50) := by
  rw [genSpec_eq, specOf_of_gauge _ hk]
  have hval : firstGaugeValue r = .num 50 := by
    simp only [firstGaugeValue, hdata, dictGet, hmiss]
  simp only [gen_gauge, hval]
  rfl

/-- C10 witness: a gauge record carrying only a score field. -/
theorem c10_gauge_missing_value_witness :
    (genSpec ⟨[]⟩ reqC10).map dataValues = .ok (some gaugeRows50) :=
  c10_gauge_missing_value ⟨[]⟩ reqC10 [("score", .num 7)] [] rfl rfl rfl

end DynamicViz
